import Mathlib

/-!
Shallow embedding of the Airweave search tool adapter for the Vercel AI SDK
(src/src/index.ts).  The adapter is a thin layer: a factory `airweaveSearch`
resolves configuration (credential, defaults, feature flags) and returns a
tool whose `execute` function resolves the effective collection and limit,
issues a single remote search call, and reshapes the response.

Modelling decisions:
* JS `undefined`/absent optional values are `Option.none`; the nullish
  coalescing operator `??` is the match-on-`Option` below, and JS falsiness
  checks on strings (`!apiKey`, `!collectionId`) test `none` or `some ""`.
* JS numbers that carry limits and scores are modelled as `Rat` (the zod
  schema uses `z.number()` without `.int()`, so non-integers must be
  representable).
* The asynchronous remote client `client.collections.search` is a function
  argument `remote : String → SearchParams → Except ε (SearchResponse α)`;
  `execute` additionally returns the list of remote calls it issued, so that
  "no network call" and "exactly one call" are statable.
* The search results are pure pass-through data (the source casts them with
  `as unknown as`), so `execute` is polymorphic in the result item type `α`.
* The output key `answer` is built by `...(response.completion && { answer:
  response.completion })`: the key is truly absent when `completion` is
  absent or the empty string.  `ToolOutput.answer = none` models the absent
  key.
-/

namespace Airweave

/-- Configuration options accepted by the factory (`AirweaveSearchOptions`).
Every field is optional; `none` is an absent / `undefined` field. -/
structure AirweaveSearchOptions where
  apiKey : Option String := none
  baseUrl : Option String := none
  defaultCollection : Option String := none
  defaultLimit : Option Rat := none
  generateAnswer : Option Bool := none
  expandQuery : Option Bool := none
  rerank : Option Bool := none
deriving DecidableEq

/-- The configuration captured by the returned tool closure after the
destructuring with defaults at the top of `airweaveSearch`. -/
structure ResolvedConfig where
  apiKey : String
  baseUrl : Option String := none
  defaultCollection : Option String := none
  defaultLimit : Rat := 10
  generateAnswer : Bool := false
  expandQuery : Bool := true
  rerank : Bool := true
deriving DecidableEq

/-- The per-call tool input after schema validation
(`{ query, collection, limit }`). -/
structure ToolInput where
  query : String
  collection : Option String := none
  limit : Option Rat := none
deriving DecidableEq

/-- The request body of the remote call
`client.collections.search(collectionId, { ... })`. -/
structure SearchParams where
  query : String
  limit : Rat
  generate_answer : Bool
  expand_query : Bool
  rerank : Bool
deriving DecidableEq

/-- The remote response consumed by `execute`: a results sequence (opaque
pass-through items of type `α`) and an optional `completion` string. -/
structure SearchResponse (α : Type) where
  results : List α
  completion : Option String := none
deriving DecidableEq

/-- The object returned by `execute`: `{ results, ...(completion && { answer:
completion }) }`.  `answer = none` models the `answer` key being absent. -/
structure ToolOutput (α : Type) where
  results : List α
  answer : Option String := none
deriving DecidableEq

/-- Errors raised by `execute`: a configuration error thrown locally before
any network call, or a remote-service failure propagated from the client. -/
inductive ExecError (ε : Type) where
  | configError (msg : String)
  | remoteError (e : ε)
deriving DecidableEq

/-- Message of the construction-time credential error in the source. -/
def apiKeyRequiredMsg : String :=
  "Airweave API key is required. Set AIRWEAVE_API_KEY environment variable or pass apiKey option."

/-- Message of the execution-time missing-collection error in the source. -/
def collectionRequiredMsg : String :=
  "Collection is required. Pass collection in the query or set defaultCollection option."

/-- The zod input schema as an acceptance predicate:
`query: z.string().min(1).max(1000)`, `collection: z.string().optional()`
(type-checked only, any string accepted), and
`limit: z.number().min(1).max(100).optional()`.  Note the source does not
call `.int()` on `limit`. -/
def inputSchemaAccepts (query : String) (collection : Option String)
    (limit : Option Rat) : Bool :=
  decide (1 ≤ query.length) && decide (query.length ≤ 1000) &&
    (match collection, limit with
     | _, none => true
     | _, some l => decide (1 ≤ l) && decide (l ≤ 100))

/-- `collection ?? defaultCollection` (nullish coalescing: an explicit
per-call string, even the empty one, short-circuits the default). -/
def resolveCollectionId (collection defaultCollection : Option String) :
    Option String :=
  match collection with
  | some c => some c
  | none => defaultCollection

/-- The request object literal passed to `client.collections.search`:
`{ query, limit: limit ?? defaultLimit, generate_answer: generateAnswer,
expand_query: expandQuery, rerank }`. -/
def mkSearchParams (cfg : ResolvedConfig) (query : String)
    (limit : Option Rat) : SearchParams :=
  { query := query
    limit := limit.getD cfg.defaultLimit
    generate_answer := cfg.generateAnswer
    expand_query := cfg.expandQuery
    rerank := cfg.rerank }

/-- The conditional spread `...(response.completion && { answer:
response.completion })`: the `answer` key is present exactly when the
completion is a non-empty string. -/
def answerField (completion : Option String) : Option String :=
  match completion with
  | some s => if s = "" then none else some s
  | none => none

/-- Body of the execution function once `collectionId` has resolved to a
string: the falsiness check still rejects the empty string, otherwise the
single remote call is issued and the response reshaped. -/
def executeResolved {α ε : Type} (cfg : ResolvedConfig)
    (remote : String → SearchParams → Except ε (SearchResponse α))
    (input : ToolInput) (collectionId : String) :
    List (String × SearchParams) × Except (ExecError ε) (ToolOutput α) :=
  if collectionId = "" then
    ([], .error (.configError collectionRequiredMsg))
  else
    match remote collectionId (mkSearchParams cfg input.query input.limit) with
    | .error e =>
      ([(collectionId, mkSearchParams cfg input.query input.limit)],
       .error (.remoteError e))
    | .ok response =>
      ([(collectionId, mkSearchParams cfg input.query input.limit)],
       .ok { results := response.results
             answer := answerField response.completion })

/-- The tool execution function.  Returns the list of remote calls issued
(collection id and request body, in order) together with the result.  The
source: resolve `collectionId` with `??`, throw a configuration error when
it is falsy (`undefined` or the empty string), issue the single remote
call, and reshape the response. -/
def execute {α ε : Type} (cfg : ResolvedConfig)
    (remote : String → SearchParams → Except ε (SearchResponse α))
    (input : ToolInput) :
    List (String × SearchParams) × Except (ExecError ε) (ToolOutput α) :=
  match resolveCollectionId input.collection cfg.defaultCollection with
  | none => ([], .error (.configError collectionRequiredMsg))
  | some collectionId => executeResolved cfg remote input collectionId

/-- The destructuring default `apiKey = process.env.AIRWEAVE_API_KEY`: the
explicit option, when set (even to the empty string), takes precedence over
the environment value. -/
def resolveApiKey (explicit env : Option String) : Option String :=
  match explicit with
  | some k => some k
  | none => env

/-- The configuration captured by the returned tool closure, given the
resolved non-empty credential: destructuring defaults fill in the limit and
the three feature flags.  The client is constructed with
`...(baseUrl && { baseUrl })`, so an empty-string base URL is dropped. -/
def mkConfig (options : AirweaveSearchOptions) (k : String) : ResolvedConfig :=
  { apiKey := k
    baseUrl := match options.baseUrl with
      | some b => if b = "" then none else some b
      | none => none
    defaultCollection := options.defaultCollection
    defaultLimit := options.defaultLimit.getD 10
    generateAnswer := options.generateAnswer.getD false
    expandQuery := options.expandQuery.getD true
    rerank := options.rerank.getD true }

/-- The factory.  `env` is the value of the `AIRWEAVE_API_KEY` environment
variable.  The credential check `if (!apiKey) throw ...` rejects an
unresolved or empty credential at construction time, before any network
activity.  On success the resolved configuration captured by the returned
tool is produced. -/
def airweaveSearch (env : Option String) (options : AirweaveSearchOptions) :
    Except String ResolvedConfig :=
  match resolveApiKey options.apiKey env with
  | none => .error apiKeyRequiredMsg
  | some k =>
    if k = "" then .error apiKeyRequiredMsg
    else .ok (mkConfig options k)

/-- A stubbed remote client that always succeeds with a fixed response. -/
def stubOk {α : Type} (resp : SearchResponse α) :
    String → SearchParams → Except String (SearchResponse α) :=
  fun _ _ => .ok resp

/-- A stubbed remote client that always fails with a fixed error. -/
def stubErr {α : Type} (e : String) :
    String → SearchParams → Except String (SearchResponse α) :=
  fun _ _ => .error e

/-- A concrete configuration used by several witnesses: explicit credential
and a configured default collection. -/
def sampleCfg : ResolvedConfig := { apiKey := "k", defaultCollection := some "kb" }

/-- A concrete remote response used by several witnesses. -/
def sampleResp : SearchResponse Unit := { results := [], completion := some "X" }

/-- Computation rule: an explicit per-call collection short-circuits the
default (nullish coalescing). -/
theorem resolveCollectionId_some (c : String) (d : Option String) :
    resolveCollectionId (some c) d = some c := rfl

/-- Computation rule: an absent per-call collection falls through to the
configured default. -/
theorem resolveCollectionId_none (d : Option String) :
    resolveCollectionId none d = d := rfl

/-- Equation for `execute` when no collection resolves. -/
theorem execute_eq_of_resolve_none {α ε : Type} (cfg : ResolvedConfig)
    (remote : String → SearchParams → Except ε (SearchResponse α))
    (input : ToolInput)
    (h : resolveCollectionId input.collection cfg.defaultCollection = none) :
    execute cfg remote input =
      ([], .error (.configError collectionRequiredMsg)) := by
  unfold execute
  rw [h]

/-- Equation for `execute` when a collection string resolves. -/
theorem execute_eq_of_resolve_some {α ε : Type} (cfg : ResolvedConfig)
    (remote : String → SearchParams → Except ε (SearchResponse α))
    (input : ToolInput) (c : String)
    (h : resolveCollectionId input.collection cfg.defaultCollection = some c) :
    execute cfg remote input = executeResolved cfg remote input c := by
  unfold execute
  rw [h]

/-- The conditional answer is a string exactly when the completion is that
string and it is non-empty. -/
theorem answerField_eq_some_iff (completion : Option String) (a : String) :
    answerField completion = some a ↔ (completion = some a ∧ a ≠ "") := by
  cases completion with
  | none => simp [answerField]
  | some s =>
    by_cases hs : s = ""
    · subst hs
      simp [answerField]
      exact fun h => h.symm
    · simp only [answerField]
      rw [if_neg hs]
      constructor
      · intro h
        have hsa : s = a := Option.some.inj h
        subst hsa
        exact ⟨rfl, hs⟩
      · intro h
        exact h.1

/-- The conditional answer is absent when the completion is absent or
empty. -/
theorem answerField_of_no_completion (completion : Option String)
    (h : completion = none ∨ completion = some "") :
    answerField completion = none := by
  rcases h with h | h <;> subst h <;> simp [answerField]

/-- Shape of the remote-call trace: either no call was issued, or exactly one
call, addressed to the resolved non-empty collection and carrying the request
built by `mkSearchParams`. -/
theorem execute_calls_shape {α ε : Type} (cfg : ResolvedConfig)
    (remote : String → SearchParams → Except ε (SearchResponse α))
    (input : ToolInput) :
    (execute cfg remote input).1 = [] ∨
    ∃ c : String,
      resolveCollectionId input.collection cfg.defaultCollection = some c ∧
      c ≠ "" ∧
      (execute cfg remote input).1 =
        [(c, mkSearchParams cfg input.query input.limit)] := by
  cases h : resolveCollectionId input.collection cfg.defaultCollection with
  | none =>
    rw [execute_eq_of_resolve_none cfg remote input h]
    exact Or.inl rfl
  | some c =>
    rw [execute_eq_of_resolve_some cfg remote input c h]
    by_cases hc : c = ""
    · unfold executeResolved
      rw [if_pos hc]
      exact Or.inl rfl
    · refine Or.inr ⟨c, rfl, hc, ?_⟩
      unfold executeResolved
      rw [if_neg hc]
      cases hr : remote c (mkSearchParams cfg input.query input.limit) <;> rfl

/-- C1: on every successful execution the output carries the remote results
sequence unchanged, and it carries an answer exactly when the remote
completion is present and non-empty; when no answer was generated the answer
field is absent (`none` models the key being omitted by the conditional
spread). -/
theorem execute_success_answer_iff {α ε : Type} (cfg : ResolvedConfig)
    (remote : String → SearchParams → Except ε (SearchResponse α))
    (input : ToolInput) (c : String) (resp : SearchResponse α)
    (hres : resolveCollectionId input.collection cfg.defaultCollection = some c)
    (hc : c ≠ "")
    (hr : remote c (mkSearchParams cfg input.query input.limit) = Except.ok resp) :
    ∃ out : ToolOutput α, (execute cfg remote input).2 = Except.ok out ∧
      out.results = resp.results ∧
      (∀ a : String, out.answer = some a ↔ (resp.completion = some a ∧ a ≠ "")) ∧
      ((resp.completion = none ∨ resp.completion = some "") →
        out.answer = none) := by
  rw [execute_eq_of_resolve_some cfg remote input c hres]
  unfold executeResolved
  rw [if_neg hc, hr]
  exact ⟨_, rfl, rfl, fun a => answerField_eq_some_iff resp.completion a,
    answerField_of_no_completion resp.completion⟩

/-- Witness for C1 at a concrete configuration, stub and input. -/
theorem execute_success_answer_iff_witness :
    ∃ out : ToolOutput Unit,
      (execute sampleCfg (stubOk sampleResp) { query := "q" }).2 = Except.ok out ∧
      out.results = sampleResp.results ∧
      (∀ a : String, out.answer = some a ↔
        (sampleResp.completion = some a ∧ a ≠ "")) ∧
      ((sampleResp.completion = none ∨ sampleResp.completion = some "") →
        out.answer = none) :=
  execute_success_answer_iff sampleCfg (stubOk sampleResp) { query := "q" }
    "kb" sampleResp rfl (by decide) rfl

/-- C2: every remote request issued by the execution function carries exactly
the configured generate-answer, expand-query and rerank flags; no per-call
input can change them. -/
theorem execute_flags_from_config {α ε : Type} (cfg : ResolvedConfig)
    (remote : String → SearchParams → Except ε (SearchResponse α))
    (input : ToolInput) :
    ∀ call ∈ (execute cfg remote input).1,
      call.2.generate_answer = cfg.generateAnswer ∧
      call.2.expand_query = cfg.expandQuery ∧
      call.2.rerank = cfg.rerank := by
  intro call hcall
  rcases execute_calls_shape cfg remote input with h | ⟨c, _, _, h⟩
  · rw [h] at hcall
    cases hcall
  · rw [h] at hcall
    have hc : call = (c, mkSearchParams cfg input.query input.limit) :=
      List.mem_singleton.mp hcall
    subst hc
    exact ⟨rfl, rfl, rfl⟩

/-- Witness for C2: the single call issued by a concrete execution carries
the configured flags. -/
theorem execute_flags_from_config_witness :
    ("kb", mkSearchParams sampleCfg "q" none).2.generate_answer =
      sampleCfg.generateAnswer ∧
    ("kb", mkSearchParams sampleCfg "q" none).2.expand_query =
      sampleCfg.expandQuery ∧
    ("kb", mkSearchParams sampleCfg "q" none).2.rerank = sampleCfg.rerank :=
  execute_flags_from_config sampleCfg (stubOk sampleResp) { query := "q" }
    ("kb", mkSearchParams sampleCfg "q" none) (by decide)

/-- C3: with neither a per-call collection nor a configured default, the
execution fails with the configuration error (not a remote error) and the
remote-call trace is empty. -/
theorem execute_missing_collection_config_error {α ε : Type}
    (cfg : ResolvedConfig)
    (remote : String → SearchParams → Except ε (SearchResponse α))
    (input : ToolInput)
    (h1 : input.collection = none) (h2 : cfg.defaultCollection = none) :
    execute cfg remote input =
      ([], .error (.configError collectionRequiredMsg)) := by
  apply execute_eq_of_resolve_none
  rw [h1, resolveCollectionId_none, h2]

/-- Witness for C3 at a concrete configuration with no default collection. -/
theorem execute_missing_collection_config_error_witness :
    execute { apiKey := "k" } (stubOk ({ results := [] } : SearchResponse Unit))
        { query := "q" } =
      ([], .error (.configError collectionRequiredMsg)) :=
  execute_missing_collection_config_error { apiKey := "k" }
    (stubOk ({ results := [] } : SearchResponse Unit)) { query := "q" } rfl rfl

/-- C5: when a per-call collection is supplied, every remote call of that
execution is addressed to it; an execution without a per-call collection
still uses the configured default, which the override does not change. -/
theorem execute_collection_override {α ε : Type} (cfg : ResolvedConfig)
    (remote : String → SearchParams → Except ε (SearchResponse α))
    (input : ToolInput) (d c : String)
    (hd : cfg.defaultCollection = some d) (hc : input.collection = some c) :
    (∀ call ∈ (execute cfg remote input).1, call.1 = c) ∧
    (∀ input2 : ToolInput, input2.collection = none →
      ∀ call ∈ (execute cfg remote input2).1, call.1 = d) := by
  constructor
  · intro call hcall
    rcases execute_calls_shape cfg remote input with h | ⟨c0, hres, _, h⟩
    · rw [h] at hcall
      cases hcall
    · rw [h] at hcall
      have hcc : call = (c0, mkSearchParams cfg input.query input.limit) :=
        List.mem_singleton.mp hcall
      subst hcc
      rw [hc, resolveCollectionId_some] at hres
      exact (Option.some.inj hres).symm
  · intro input2 h2 call hcall
    rcases execute_calls_shape cfg remote input2 with h | ⟨c0, hres, _, h⟩
    · rw [h] at hcall
      cases hcall
    · rw [h] at hcall
      have hcc : call = (c0, mkSearchParams cfg input2.query input2.limit) :=
        List.mem_singleton.mp hcall
      subst hcc
      rw [h2, resolveCollectionId_none, hd] at hres
      exact (Option.some.inj hres).symm

/-- Witness for C5: with default collection "kb" and override "override",
the issued call goes to "override"; without the override it goes to "kb". -/
theorem execute_collection_override_witness :
    ("override", mkSearchParams sampleCfg "q" none).1 = "override" ∧
    ("kb", mkSearchParams sampleCfg "q" none).1 = "kb" :=
  ⟨(execute_collection_override sampleCfg (stubOk sampleResp)
      { query := "q", collection := some "override" } "kb" "override" rfl rfl).1
      ("override", mkSearchParams sampleCfg "q" none) (by decide),
   (execute_collection_override sampleCfg (stubOk sampleResp)
      { query := "q", collection := some "override" } "kb" "override" rfl rfl).2
      { query := "q" } rfl ("kb", mkSearchParams sampleCfg "q" none) (by decide)⟩

/-- C9: an empty-string per-call collection does not fall through to the
configured default; the execution throws the configuration error and issues
no remote call, whatever the configured default is. -/
theorem execute_empty_collection_rejected {α ε : Type} (cfg : ResolvedConfig)
    (remote : String → SearchParams → Except ε (SearchResponse α))
    (input : ToolInput) (h : input.collection = some "") :
    execute cfg remote input =
      ([], .error (.configError collectionRequiredMsg)) := by
  rw [execute_eq_of_resolve_some cfg remote input ""
    (by rw [h, resolveCollectionId_some])]
  unfold executeResolved
  rw [if_pos rfl]

/-- Witness for C9 with a configured non-empty default collection. -/
theorem execute_empty_collection_rejected_witness :
    execute sampleCfg (stubOk sampleResp) { query := "q", collection := some "" } =
      ([], .error (.configError collectionRequiredMsg)) ∧
    sampleCfg.defaultCollection = some "kb" :=
  ⟨execute_empty_collection_rejected sampleCfg (stubOk sampleResp)
      { query := "q", collection := some "" } rfl, rfl⟩

/-- Equation for `airweaveSearch` when no credential resolves. -/
theorem airweaveSearch_eq_of_key_none (env : Option String)
    (options : AirweaveSearchOptions)
    (h : resolveApiKey options.apiKey env = none) :
    airweaveSearch env options = .error apiKeyRequiredMsg := by
  unfold airweaveSearch
  rw [h]

/-- Equation for `airweaveSearch` when a credential string resolves. -/
theorem airweaveSearch_eq_of_key_some (env : Option String)
    (options : AirweaveSearchOptions) (k : String)
    (h : resolveApiKey options.apiKey env = some k) :
    airweaveSearch env options =
      (if k = "" then .error apiKeyRequiredMsg
       else .ok (mkConfig options k)) := by
  unfold airweaveSearch
  rw [h]

/-- Under a successful resolution to a non-empty collection, the execution
issues exactly one remote call, whatever the remote outcome is. -/
theorem execute_calls_of_resolve {α ε : Type} (cfg : ResolvedConfig)
    (remote : String → SearchParams → Except ε (SearchResponse α))
    (input : ToolInput) (c : String)
    (hres : resolveCollectionId input.collection cfg.defaultCollection = some c)
    (hc : c ≠ "") :
    (execute cfg remote input).1 =
      [(c, mkSearchParams cfg input.query input.limit)] := by
  rw [execute_eq_of_resolve_some cfg remote input c hres]
  unfold executeResolved
  rw [if_neg hc]
  cases hr : remote c (mkSearchParams cfg input.query input.limit) <;> rfl

/-- C4: when neither an explicit non-empty credential nor an environment
value is present, the factory fails at construction time with the credential
configuration error (before any network activity, which only `execute` can
perform); an explicit non-empty credential takes precedence over the
environment value, whose presence does not change the result. -/
theorem airweaveSearch_credential (env : Option String)
    (options : AirweaveSearchOptions) :
    ((options.apiKey = none ∨ options.apiKey = some "") → env = none →
      airweaveSearch env options = .error apiKeyRequiredMsg) ∧
    (∀ k : String, options.apiKey = some k → k ≠ "" →
      ∃ cfg : ResolvedConfig, airweaveSearch env options = .ok cfg ∧
        cfg.apiKey = k ∧ airweaveSearch none options = .ok cfg) := by
  constructor
  · intro h henv
    rcases h with h | h
    · apply airweaveSearch_eq_of_key_none
      rw [h, henv]
      rfl
    · rw [airweaveSearch_eq_of_key_some env options ""
        (by simp [resolveApiKey, h]), if_pos rfl]
  · intro k hk hne
    have h1 : resolveApiKey options.apiKey env = some k := by
      simp [resolveApiKey, hk]
    have h2 : resolveApiKey options.apiKey none = some k := by
      simp [resolveApiKey, hk]
    rw [airweaveSearch_eq_of_key_some env options k h1,
      airweaveSearch_eq_of_key_some none options k h2, if_neg hne]
    exact ⟨mkConfig options k, rfl, rfl, rfl⟩

/-- Witness for C4: the empty configuration with no environment value fails
with the credential error; an explicit credential wins over the environment
one. -/
theorem airweaveSearch_credential_witness :
    airweaveSearch none {} = .error apiKeyRequiredMsg ∧
    ∃ cfg : ResolvedConfig,
      airweaveSearch (some "envkey") { apiKey := some "explicit" } = .ok cfg ∧
      cfg.apiKey = "explicit" ∧
      airweaveSearch none { apiKey := some "explicit" } = .ok cfg :=
  ⟨(airweaveSearch_credential none {}).1 (Or.inl rfl) rfl,
   (airweaveSearch_credential (some "envkey") { apiKey := some "explicit" }).2
     "explicit" rfl (by decide)⟩

/-- C6 counterexample: the limit schema is `z.number().min(1).max(100)`
without `.int()`, so the non-integer limit 3/2 is accepted by the schema,
refuting the requirement that only integer limits pass validation. -/
theorem inputSchema_accepts_noninteger_limit :
    inputSchemaAccepts "q" none (some ((3 : Rat) / 2)) = true ∧
    ((3 : Rat) / 2).den ≠ 1 := by
  constructor
  · simp [inputSchemaAccepts]
    exact ⟨by decide, by norm_num⟩
  · norm_num

/-- C6 amended: the schema accepts an input exactly when the query length is
between 1 and 1000 and the limit, when present, is a number between 1 and
100; integrality of the limit is not enforced.  Validation is a pure
predicate evaluated by the framework before `execute` runs, hence before any
network call. -/
theorem inputSchemaAccepts_iff (query : String) (collection : Option String)
    (limit : Option Rat) :
    inputSchemaAccepts query collection limit = true ↔
      (1 ≤ query.length ∧ query.length ≤ 1000 ∧
        ∀ l : Rat, limit = some l → 1 ≤ l ∧ l ≤ 100) := by
  cases limit with
  | none => simp [inputSchemaAccepts]
  | some l =>
    simp [inputSchemaAccepts]
    tauto

/-- Witness for C6 amended at a concrete accepted input. -/
theorem inputSchemaAccepts_iff_witness :
    inputSchemaAccepts "budget" none (some 10) = true :=
  (inputSchemaAccepts_iff "budget" none (some 10)).mpr
    ⟨by decide, by decide, fun l hl => by
      cases hl
      exact ⟨by norm_num, by norm_num⟩⟩

/-- Payload of the end-to-end scenario result item: a concrete instance of
the open-ended pass-through payload carrying a name. -/
structure ScenarioPayload where
  name : Option String := none
deriving DecidableEq

/-- Result item of the end-to-end scenario. -/
structure ScenarioItem where
  id : String
  score : Rat
  payload : ScenarioPayload
deriving DecidableEq

/-- Stubbed remote service of the end-to-end scenario: returns one result
and no completion. -/
def scenarioStub : String → SearchParams → Except String (SearchResponse ScenarioItem) :=
  fun _ _ =>
    .ok { results := [{ id := "a1", score := 9/10,
                        payload := { name := some "Doc" } }] }

/-- C7: end-to-end scenario: a factory built with only a default collection
"kb1" and default limit 10 (credential from the environment) produces a
configuration with flags defaulted to generateAnswer false, expandQuery
true, rerank true; executing `{query := "budget"}` sends exactly the
expected outbound request and returns the stub results unchanged with no
answer field. -/
theorem airweaveSearch_end_to_end :
    ∃ cfg : ResolvedConfig,
      airweaveSearch (some "test-key")
        { defaultCollection := some "kb1", defaultLimit := some 10 } = .ok cfg ∧
      cfg.defaultLimit = 10 ∧ cfg.generateAnswer = false ∧
      cfg.expandQuery = true ∧ cfg.rerank = true ∧
      execute cfg scenarioStub { query := "budget" } =
        ([("kb1", { query := "budget", limit := 10, generate_answer := false,
                    expand_query := true, rerank := true })],
         .ok { results := [{ id := "a1", score := 9/10,
                             payload := { name := some "Doc" } }],
               answer := none }) :=
  ⟨_, rfl, rfl, rfl, rfl, rfl, rfl⟩

/-- C8: every execution issues at most one remote call, and when the remote
call fails the failure is propagated unchanged as a remote error, with no
retry and no partial result. -/
theorem execute_remote_failure_propagates {α ε : Type} (cfg : ResolvedConfig)
    (remote : String → SearchParams → Except ε (SearchResponse α))
    (input : ToolInput) :
    (execute cfg remote input).1.length ≤ 1 ∧
    ∀ (c : String) (e : ε),
      resolveCollectionId input.collection cfg.defaultCollection = some c →
      c ≠ "" →
      remote c (mkSearchParams cfg input.query input.limit) = .error e →
      execute cfg remote input =
        ([(c, mkSearchParams cfg input.query input.limit)],
         .error (.remoteError e)) := by
  constructor
  · rcases execute_calls_shape cfg remote input with h | ⟨c, _, _, h⟩ <;>
      rw [h] <;> simp
  · intro c e hres hc hr
    rw [execute_eq_of_resolve_some cfg remote input c hres]
    unfold executeResolved
    rw [if_neg hc, hr]

/-- Witness for C8 with a stub that fails. -/
theorem execute_remote_failure_propagates_witness :
    execute sampleCfg
        (stubErr "boom" : String → SearchParams → Except String (SearchResponse Unit))
        { query := "q" } =
      ([("kb", mkSearchParams sampleCfg "q" none)],
       .error (.remoteError "boom")) :=
  (execute_remote_failure_propagates sampleCfg (stubErr "boom")
      { query := "q" }).2 "kb" "boom" rfl (by decide) rfl

/-- C10: the 1 to 100 bound applies only to the per-call limit.  The factory
accepts any configured default limit without validation, and an execution
that omits the per-call limit sends the configured default unchanged to the
remote service. -/
theorem defaultLimit_unvalidated {α ε : Type} (env : Option String)
    (options : AirweaveSearchOptions) (q : Rat) (cfg : ResolvedConfig)
    (remote : String → SearchParams → Except ε (SearchResponse α))
    (input : ToolInput) (c : String)
    (hq : options.defaultLimit = some q)
    (hok : airweaveSearch env options = .ok cfg)
    (hres : resolveCollectionId input.collection cfg.defaultCollection = some c)
    (hc : c ≠ "") (hlim : input.limit = none) :
    cfg.defaultLimit = q ∧
    (execute cfg remote input).1 =
      [(c, mkSearchParams cfg input.query input.limit)] ∧
    (mkSearchParams cfg input.query input.limit).limit = q := by
  have hdl : cfg.defaultLimit = q := by
    cases hk : resolveApiKey options.apiKey env with
    | none =>
      rw [airweaveSearch_eq_of_key_none env options hk] at hok
      cases hok
    | some k =>
      rw [airweaveSearch_eq_of_key_some env options k hk] at hok
      by_cases hke : k = ""
      · rw [if_pos hke] at hok
        cases hok
      · rw [if_neg hke] at hok
        have hcfg : mkConfig options k = cfg := Except.ok.inj hok
        rw [← hcfg]
        show options.defaultLimit.getD 10 = q
        rw [hq]
        rfl
  refine ⟨hdl, execute_calls_of_resolve cfg remote input c hres hc, ?_⟩
  rw [hlim]
  exact hdl

/-- Options with an out-of-bounds configured default limit of minus five,
used by the witness for C10. -/
def lowLimitOptions : AirweaveSearchOptions :=
  { apiKey := some "k", defaultCollection := some "kb",
    defaultLimit := some (-5) }

/-- The configuration resolved from `lowLimitOptions`. -/
def lowLimitCfg : ResolvedConfig := mkConfig lowLimitOptions "k"

/-- Witness for C10: a configured default limit of minus five is accepted by
the factory and sent unchanged. -/
theorem defaultLimit_unvalidated_witness :
    lowLimitCfg.defaultLimit = -5 ∧
    (execute lowLimitCfg (stubOk ({ results := [] } : SearchResponse Unit))
        { query := "q" }).1 =
      [("kb", mkSearchParams lowLimitCfg "q" none)] ∧
    (mkSearchParams lowLimitCfg "q" none).limit = -5 :=
  defaultLimit_unvalidated none lowLimitOptions (-5) lowLimitCfg
    (stubOk ({ results := [] } : SearchResponse Unit)) { query := "q" } "kb"
    rfl rfl rfl (by decide) rfl

end Airweave
